import Mathlib

/-!
Verification development for the earnings-call RAG application.

The definitions below are shallow embeddings of the Python source:
`config.py` (configuration constants), `src/rag_system.py` (chunking,
search, query, statistics, deletion) and `src/scheduler.py` (job removal).
Strings stand for Python strings, `ℚ` for the floating-point similarity
scores, `Nat` instants for `datetime` values, and association lists for
the metadata dictionaries.  A text is represented by its word list, the
result of Python's `text.split()` (the empty text splits to `[]`).
-/

namespace EarningsRAG

/-- Configuration constant `CHUNK_SIZE` from `config.py`. -/
def CHUNK_SIZE : Nat := 1000

/-- Configuration constant `CHUNK_OVERLAP` from `config.py`. -/
def CHUNK_OVERLAP : Nat := 200

/-- Configuration constant `SIMILARITY_THRESHOLD` from `config.py`. -/
def SIMILARITY_THRESHOLD : ℚ := 7/10

/-- Configuration constant `MAX_RETRIEVAL_RESULTS` from `config.py`. -/
def MAX_RETRIEVAL_RESULTS : Nat := 5

/-- The loop body of `RAGSystem._chunk_text` (rag_system.py lines 120-127),
written relative to the current suffix `ws = words[i:]`.  Each iteration
appends `words[i:i+chunk_size]` and breaks once `i + chunk_size >= len(words)`;
otherwise `i` advances by `step`.  Because the loop never breaks while
`chunk_size < len(words) - i` and `step ≤ chunk_size`, the `range` bound
`i < len(words)` of the Python `for` is always satisfied when re-entered,
so the relative recursion is faithful for `1 ≤ step ≤ chunk_size`.
`fuel` bounds the recursion; any `fuel ≥ ws.length` gives the loop's value. -/
def chunkWordsAux (chunkSize step : Nat) : Nat → List String → List (List String)
  | 0, _ => []
  | fuel + 1, ws =>
    if ws.isEmpty then []
    else
      let c := ws.take chunkSize
      if ws.length ≤ chunkSize then [c]
      else c :: chunkWordsAux chunkSize step fuel (ws.drop step)

/-- `RAGSystem._chunk_text` (rag_system.py lines 115-129) over the word list,
generalized over the two configuration constants.  The Python loop is
`for i in range(0, len(words), chunk_size - overlap)`: a zero step makes
`range` raise `ValueError` at runtime (modelled by `none`), a negative step
(overlap > chunk_size) makes the range empty so the function silently
returns no chunks. -/
def chunkText (chunkSize overlap : Nat) (words : List String) : Option (List (List String)) :=
  if overlap = chunkSize then none
  else if chunkSize < overlap then some []
  else some (chunkWordsAux chunkSize (chunkSize - overlap) words.length words)

/-- `RAGSystem._chunk_text` at the deployed configuration. -/
def chunkTextConfig (words : List String) : Option (List (List String)) :=
  chunkText CHUNK_SIZE CHUNK_OVERLAP words

/-- Chunk count predicted by the amended counting claim: zero chunks for the
empty word list, otherwise `max 1 (ceil ((n - overlap) / (chunkSize - overlap)))`
computed in natural numbers (which agrees with the spec's ceiling formula
whenever `n > overlap`, and is `1` for every nonempty text of at most
`chunkSize` words). -/
def expectedChunkCount (chunkSize overlap n : Nat) : Nat :=
  if n = 0 then 0
  else max 1 ((n - overlap + (chunkSize - overlap) - 1) / (chunkSize - overlap))

/-- Word counts of the chunks, as a pure recursion on the word count of the
remaining suffix: a nonempty suffix of at most `chunkSize` words yields a
final chunk of that full size, a longer one yields a `chunkSize`-word chunk
followed by the chunks of the suffix shortened by `step`. -/
def chunkSizesAux (chunkSize step : Nat) : Nat → Nat → List Nat
  | 0, _ => []
  | fuel + 1, n =>
    if n = 0 then []
    else if n ≤ chunkSize then [n]
    else chunkSize :: chunkSizesAux chunkSize step fuel (n - step)

/-- Mapping each chunk to its word count turns `chunkWordsAux` into the pure
size recursion `chunkSizesAux`, with no side condition. -/
theorem chunkWordsAux_map_length (chunkSize step : Nat) :
    ∀ (fuel : Nat) (ws : List String),
      (chunkWordsAux chunkSize step fuel ws).map List.length =
        chunkSizesAux chunkSize step fuel ws.length := by
  intro fuel
  induction fuel with
  | zero => intro ws; rfl
  | succ fuel ih =>
    intro ws
    simp only [chunkWordsAux, chunkSizesAux, List.isEmpty_iff, List.length_eq_zero]
    by_cases h0 : ws = []
    · simp [h0]
    · simp only [h0, if_false]
      by_cases h1 : ws.length ≤ chunkSize
      · simp [h1, Nat.min_eq_left h1]
      · simp only [h1, if_false, List.map_cons, List.length_take]
        rw [ih]
        simp only [List.length_drop]
        congr 1
        omega

/-- The number of chunks produced for a text of `n` words matches
`expectedChunkCount` whenever `overlap < chunkSize` and the fuel covers `n`. -/
theorem chunkSizesAux_length (cs ov : Nat) (hov : ov < cs) :
    ∀ (fuel n : Nat), n ≤ fuel →
      (chunkSizesAux cs (cs - ov) fuel n).length = expectedChunkCount cs ov n := by
  intro fuel
  induction fuel with
  | zero =>
    intro n hn
    interval_cases n
    rfl
  | succ fuel ih =>
    intro n hn
    have hs : 0 < cs - ov := by omega
    by_cases h0 : n = 0
    · subst h0; rfl
    · by_cases h1 : n ≤ cs
      · have hd : (n - ov + (cs - ov) - 1) / (cs - ov) < 2 := by
          rw [Nat.div_lt_iff_lt_mul hs]; omega
        simp only [chunkSizesAux, h0, if_false, h1, if_true, List.length_singleton,
          expectedChunkCount]
        omega
      · have hcs : cs < n := by omega
        have hrec : n - (cs - ov) ≤ fuel := by omega
        simp only [chunkSizesAux, h0, if_false, h1, if_true, List.length_cons]
        rw [ih (n - (cs - ov)) hrec]
        have hB0 : n - (cs - ov) ≠ 0 := by omega
        simp only [expectedChunkCount, if_neg h0, if_neg hB0]
        have hA : n - ov + (cs - ov) - 1 = (n - ov - 1) + (cs - ov) := by omega
        have hB : n - (cs - ov) - ov + (cs - ov) - 1 = n - ov - 1 := by omega
        rw [hA, hB, Nat.add_div_right _ hs]
        have hBge : 1 ≤ (n - ov - 1) / (cs - ov) := by
          rw [Nat.one_le_div_iff hs]; omega
        omega

/-- C1 counterexample: chunking the empty text (whose word list is empty)
produces zero chunks, not the single chunk the claim asserts for every text
of at most `chunk_size` words. -/
theorem chunk_empty_text_not_one_chunk :
    (chunkText 1000 200 ([] : List String)).map List.length ≠ some 1 := by decide

/-- C1 (amended): for `overlap < chunk_size` the chunking loop never fails and
produces `expectedChunkCount` chunks — the spec ceiling formula
`ceil((n - overlap) / (chunk_size - overlap))` whenever the text has more than
`overlap` words, exactly one chunk for any nonempty text of at most
`chunk_size` words, and zero chunks for the empty text. -/
theorem chunkText_count_formula (chunkSize overlap : Nat) (words : List String)
    (h : overlap < chunkSize) :
    (chunkText chunkSize overlap words).map List.length =
      some (expectedChunkCount chunkSize overlap words.length) := by
  unfold chunkText
  rw [if_neg (by omega), if_neg (by omega)]
  rw [show (Option.map List.length
        (some (chunkWordsAux chunkSize (chunkSize - overlap) words.length words))) =
      some (chunkWordsAux chunkSize (chunkSize - overlap) words.length words).length from rfl]
  congr 1
  calc (chunkWordsAux chunkSize (chunkSize - overlap) words.length words).length
      = ((chunkWordsAux chunkSize (chunkSize - overlap) words.length words).map
          List.length).length := (List.length_map _ _).symm
    _ = (chunkSizesAux chunkSize (chunkSize - overlap) words.length words.length).length := by
        rw [chunkWordsAux_map_length]
    _ = expectedChunkCount chunkSize overlap words.length :=
        chunkSizesAux_length chunkSize overlap h words.length words.length le_rfl

/-- C1 witness: the formula applied to a concrete two-word text. -/
theorem chunkText_count_formula_witness :
    200 < 1000 ∧
      (chunkText 1000 200 ["q1", "earnings"]).map List.length =
        some (expectedChunkCount 1000 200 2) :=
  ⟨by decide, chunkText_count_formula 1000 200 ["q1", "earnings"] (by decide)⟩

/-- C2 counterexample: a 2400-word document chunked at `chunk_size = 1000`,
`overlap = 200` does not have chunk word counts 1000, 1000, 400. -/
theorem chunk_2400_words_not_final_400 :
    (chunkText 1000 200 (List.replicate 2400 "w")).map (List.map List.length) ≠
      some [1000, 1000, 400] := by
  unfold chunkText
  rw [if_neg (by omega), if_neg (by omega)]
  intro hcontra
  rw [Option.map_some', chunkWordsAux_map_length, List.length_replicate] at hcontra
  exact absurd hcontra (by decide)

/-- C2 (amended): the 2400-word document yields three chunks of word counts
1000, 1000 and 800 — the stride is 800, so the final window starts at word
1600 and holds the remaining 800 words, not 400. -/
theorem chunk_2400_words_sizes :
    (chunkText 1000 200 (List.replicate 2400 "w")).map (List.map List.length) =
      some [1000, 1000, 800] := by
  unfold chunkText
  rw [if_neg (by omega), if_neg (by omega)]
  rw [Option.map_some', chunkWordsAux_map_length, List.length_replicate]
  decide

/-- C3: the repository performs no configuration-time validation of the pair
`(CHUNK_SIZE, CHUNK_OVERLAP)` — `config.py` only assigns the two constants.
Running the chunking loop with `overlap = chunk_size` fails at runtime inside
chunking (the Python `range` raises `ValueError` on a zero step, modelled by
`none`), and with `overlap > chunk_size` it silently returns zero chunks;
neither is the configuration-validation rejection the claim requires. -/
theorem overlap_ge_chunk_size_fails_at_runtime :
    chunkText 1000 1000 ["quarterly", "earnings"] = none ∧
      chunkText 1000 1200 ["quarterly", "earnings"] = some [] := by decide

/-- One raw hit as returned by the vector store query: a document string, its
metadata fields, and the embedding distance (rag_system.py lines 217-222). -/
structure RawResult where
  content : String
  company : String
  year : String
  quarter : String
  distance : ℚ
deriving DecidableEq

/-- One formatted search result (rag_system.py lines 228-235): the raw hit
with its distance converted to a similarity score `1 - distance`. -/
structure SearchResult where
  content : String
  company : String
  year : String
  quarter : String
  score : ℚ
deriving DecidableEq

/-- The per-hit formatting step of `RAGSystem.search_documents`
(rag_system.py lines 228-235). -/
def formatResult (r : RawResult) : SearchResult :=
  { content := r.content, company := r.company, year := r.year,
    quarter := r.quarter, score := 1 - r.distance }

/-- The where-clause construction of `RAGSystem.search_documents`
(rag_system.py lines 209-214): a filter entry is forwarded to the store only
when its value is truthy and not the sentinel "All". -/
def buildWhereClause (filters : List (String × String)) : List (String × String) :=
  filters.filter (fun kv => kv.2 ≠ "" && kv.2 ≠ "All")

/-- `RAGSystem.search_documents` (rag_system.py lines 197-248).  The vector
store is an external collaborator, modelled by `collectionQuery`, which maps
the forwarded where-clause to the raw nearest-neighbour hits; the function
then formats each hit and keeps those whose similarity score reaches
`SIMILARITY_THRESHOLD`. -/
def searchDocuments (collectionQuery : List (String × String) → List RawResult)
    (filters : List (String × String)) : List SearchResult :=
  ((collectionQuery (buildWhereClause filters)).map formatResult).filter
    (fun r => SIMILARITY_THRESHOLD ≤ r.score)

/-- Membership in the search output forces the similarity score to reach the
threshold: the final `filter` of `search_documents` keeps nothing below it. -/
theorem searchDocuments_score_ge
    (collectionQuery : List (String × String) → List RawResult)
    (filters : List (String × String)) (r : SearchResult)
    (hr : r ∈ searchDocuments collectionQuery filters) :
    SIMILARITY_THRESHOLD ≤ r.score := by
  have h := List.of_mem_filter hr
  exact of_decide_eq_true h

/-- C4: every result returned by the search operation has similarity score at
least the configured threshold, for every store content and every filter set;
results below the threshold are removed even when fewer than `k` remain. -/
theorem search_scores_ge_threshold
    (collectionQuery : List (String × String) → List RawResult)
    (filters : List (String × String)) (r : SearchResult)
    (hr : r ∈ searchDocuments collectionQuery filters) :
    SIMILARITY_THRESHOLD ≤ r.score :=
  searchDocuments_score_ge collectionQuery filters r hr

/-- C4 witness: a store holding one hit at distance 1/10 yields a result of
score 9/10, above the threshold 7/10. -/
theorem search_scores_ge_threshold_witness :
    SIMILARITY_THRESHOLD ≤
      (SearchResult.mk "beat estimates" "NVDA" "2024" "Q1" (9/10)).score :=
  search_scores_ge_threshold
    (fun _ => [RawResult.mk "beat estimates" "NVDA" "2024" "Q1" (1/10)]) []
    (SearchResult.mk "beat estimates" "NVDA" "2024" "Q1" (9/10)) (by
      have h : searchDocuments
          (fun _ => [RawResult.mk "beat estimates" "NVDA" "2024" "Q1" (1/10)]) [] =
          [SearchResult.mk "beat estimates" "NVDA" "2024" "Q1" (9/10)] := by
        norm_num [searchDocuments, buildWhereClause, formatResult, SIMILARITY_THRESHOLD]
      rw [h]
      exact List.mem_singleton.mpr rfl)

/-- The dictionary returned by `RAGSystem.query` (rag_system.py lines
292-326).  The `query` and `timestamp` keys are present only on the success
path, hence the `Option` fields (`none` models an absent key). -/
structure QueryResponse where
  answer : String
  sources : List SearchResult
  confidence : ℚ
  queryText : Option String
  timestamp : Option Nat
deriving DecidableEq

/-- The fixed no-relevant-information answer of `RAGSystem.query`
(rag_system.py line 300). -/
def NO_INFO_ANSWER : String :=
  "I couldn\x27t find relevant information in the earnings calls database. Please try rephrasing your question or check if the data for your query has been extracted."

/-- The confidence computation of `RAGSystem.query` (rag_system.py lines
309-310): the mean similarity of the retrieved results boosted by 1.2 and
clamped at 1. -/
def queryConfidence (docs : List SearchResult) : ℚ :=
  min (((docs.map SearchResult.score).sum / docs.length) * (12/10)) 1

/-- `RAGSystem.query` (rag_system.py lines 292-318) given the retrieved
documents.  `gen` is the generation backend (`generate_answer`); it is only
applied on the nonempty branch.  The empty branch (lines 298-303) returns the
fixed answer with no `query` or `timestamp` key; the success branch (lines
305-318) returns the generated answer, the sources, the boosted-mean
confidence, the query text and the current time `now`. -/
def ragQuery (gen : String → List SearchResult → String) (now : Nat)
    (queryText : String) (relevantDocs : List SearchResult) : QueryResponse :=
  if relevantDocs.isEmpty then
    { answer := NO_INFO_ANSWER, sources := [], confidence := 0,
      queryText := none, timestamp := none }
  else
    { answer := gen queryText relevantDocs, sources := relevantDocs,
      confidence := queryConfidence relevantDocs,
      queryText := some queryText, timestamp := some now }

/-- The exception branch of `RAGSystem.query` (rag_system.py lines 320-326):
an apology message, no sources, zero confidence, and again no `query` or
`timestamp` key. -/
def queryErrorResponse (msg : String) : QueryResponse :=
  { answer := "Sorry, I encountered an error while processing your query: " ++ msg,
    sources := [], confidence := 0, queryText := none, timestamp := none }

/-- The full query pipeline: retrieval via `search_documents` followed by
`RAGSystem.query`'s answer assembly (rag_system.py line 296). -/
def queryPipeline (gen : String → List SearchResult → String) (now : Nat)
    (collectionQuery : List (String × String) → List RawResult)
    (queryText : String) (filters : List (String × String)) : QueryResponse :=
  ragQuery gen now queryText (searchDocuments collectionQuery filters)

/-- C5: whenever retrieval returns an empty result list, the query operation
returns the fixed no-information answer with confidence exactly 0 and an empty
sources list, and the response does not depend on the generation backend (nor
on the clock): the backend is never invoked on that path. -/
theorem empty_retrieval_fixed_answer
    (gen gen' : String → List SearchResult → String) (now now' : Nat)
    (q : String) (collectionQuery : List (String × String) → List RawResult)
    (filters : List (String × String))
    (h : searchDocuments collectionQuery filters = []) :
    (queryPipeline gen now collectionQuery q filters).answer = NO_INFO_ANSWER ∧
      (queryPipeline gen now collectionQuery q filters).confidence = 0 ∧
      (queryPipeline gen now collectionQuery q filters).sources = [] ∧
      queryPipeline gen now collectionQuery q filters =
        queryPipeline gen' now' collectionQuery q filters := by
  unfold queryPipeline ragQuery
  rw [h]
  exact ⟨rfl, rfl, rfl, rfl⟩

/-- C5 witness: an empty vector store gives empty retrieval, the fixed answer,
zero confidence, no sources, and a backend-independent response. -/
theorem empty_retrieval_fixed_answer_witness :
    (queryPipeline (fun _ _ => "A") 0 (fun _ => []) "revenue" []).answer =
        NO_INFO_ANSWER ∧
      (queryPipeline (fun _ _ => "A") 0 (fun _ => []) "revenue" []).confidence = 0 ∧
      (queryPipeline (fun _ _ => "A") 0 (fun _ => []) "revenue" []).sources = [] ∧
      queryPipeline (fun _ _ => "A") 0 (fun _ => []) "revenue" [] =
        queryPipeline (fun _ _ => "B") 1 (fun _ => []) "revenue" [] :=
  empty_retrieval_fixed_answer (fun _ _ => "A") (fun _ _ => "B") 0 1 "revenue"
    (fun _ => []) [] rfl

/-- C6: a pipeline answer built from a nonempty retrieved result set has
confidence `min (mean score × 1.2) 1` with boost factor `1.2 > 1`, and the
confidence of every pipeline answer — empty or nonempty retrieval — lies in
`[0, 1]`. -/
theorem confidence_formula_and_bounds
    (gen : String → List SearchResult → String) (now : Nat) (q : String)
    (collectionQuery : List (String × String) → List RawResult)
    (filters : List (String × String)) :
    (searchDocuments collectionQuery filters ≠ [] →
      (queryPipeline gen now collectionQuery q filters).confidence =
        min ((((searchDocuments collectionQuery filters).map SearchResult.score).sum /
            (searchDocuments collectionQuery filters).length) * (12/10)) 1) ∧
      (1 : ℚ) < 12/10 ∧
      0 ≤ (queryPipeline gen now collectionQuery q filters).confidence ∧
      (queryPipeline gen now collectionQuery q filters).confidence ≤ 1 := by
  by_cases h : searchDocuments collectionQuery filters = []
  · unfold queryPipeline ragQuery
    rw [h]
    exact ⟨fun hne => absurd rfl hne, by norm_num, le_refl 0, by norm_num⟩
  · have hconf : (queryPipeline gen now collectionQuery q filters).confidence =
        queryConfidence (searchDocuments collectionQuery filters) := by
      unfold queryPipeline ragQuery
      rw [if_neg (by simpa [List.isEmpty_iff] using h)]
    have hscore : ∀ x ∈ (searchDocuments collectionQuery filters).map SearchResult.score,
        (0 : ℚ) ≤ x := by
      intro x hx
      obtain ⟨r, hr, hrx⟩ := List.mem_map.mp hx
      have hge := searchDocuments_score_ge collectionQuery filters r hr
      have hT : (0 : ℚ) ≤ SIMILARITY_THRESHOLD := by norm_num [SIMILARITY_THRESHOLD]
      rw [← hrx]
      linarith
    have hsum : (0 : ℚ) ≤ ((searchDocuments collectionQuery filters).map
        SearchResult.score).sum := List.sum_nonneg hscore
    have hmean : (0 : ℚ) ≤ ((searchDocuments collectionQuery filters).map
          SearchResult.score).sum / (searchDocuments collectionQuery filters).length :=
      div_nonneg hsum (Nat.cast_nonneg _)
    refine ⟨fun _ => by rw [hconf]; rfl, by norm_num, ?_, ?_⟩
    · rw [hconf]
      exact le_min (mul_nonneg hmean (by norm_num)) (by norm_num)
    · rw [hconf]
      exact min_le_right _ _

/-- C6 witness: a store with one hit at distance 1/10 yields a nonempty
retrieval, so the instantiated theorem gives the formula and the bounds. -/
theorem confidence_formula_and_bounds_witness :
    ((searchDocuments (fun _ => [RawResult.mk "c" "NVDA" "2024" "Q1" (1/10)]) [] ≠ [] →
      (queryPipeline (fun _ _ => "ans") 5
          (fun _ => [RawResult.mk "c" "NVDA" "2024" "Q1" (1/10)]) "q" []).confidence =
        min ((((searchDocuments (fun _ => [RawResult.mk "c" "NVDA" "2024" "Q1" (1/10)])
              []).map SearchResult.score).sum /
            (searchDocuments (fun _ => [RawResult.mk "c" "NVDA" "2024" "Q1" (1/10)])
              []).length) * (12/10)) 1) ∧
      (1 : ℚ) < 12/10 ∧
      0 ≤ (queryPipeline (fun _ _ => "ans") 5
          (fun _ => [RawResult.mk "c" "NVDA" "2024" "Q1" (1/10)]) "q" []).confidence ∧
      (queryPipeline (fun _ _ => "ans") 5
          (fun _ => [RawResult.mk "c" "NVDA" "2024" "Q1" (1/10)]) "q" []).confidence ≤ 1) ∧
      searchDocuments (fun _ => [RawResult.mk "c" "NVDA" "2024" "Q1" (1/10)]) [] ≠ [] :=
  ⟨confidence_formula_and_bounds (fun _ _ => "ans") 5 "q"
      (fun _ => [RawResult.mk "c" "NVDA" "2024" "Q1" (1/10)]) [],
    by norm_num [searchDocuments, buildWhereClause, formatResult, SIMILARITY_THRESHOLD]⟩

/-- C7 counterexample: the answer produced for an empty retrieval carries no
`query` key and no `timestamp` key, contradicting the claim that every answer
contains the query text and a timestamp. -/
theorem empty_result_answer_missing_fields :
    (ragQuery (fun _ _ => "generated") 0 "q" []).queryText = none ∧
      (ragQuery (fun _ _ => "generated") 0 "q" []).timestamp = none :=
  ⟨rfl, rfl⟩

/-- C7 (amended): answers produced from a nonempty retrieved result set carry
the query text and the timestamp; the empty-retrieval answer and the
internal-error answer omit both keys, carrying only answer text, sources and
confidence. -/
theorem answer_field_presence (gen : String → List SearchResult → String)
    (now : Nat) (q msg : String) (docs : List SearchResult) :
    (docs = [] → (ragQuery gen now q docs).queryText = none ∧
      (ragQuery gen now q docs).timestamp = none) ∧
      (docs ≠ [] → (ragQuery gen now q docs).queryText = some q ∧
        (ragQuery gen now q docs).timestamp = some now) ∧
      (queryErrorResponse msg).queryText = none ∧
      (queryErrorResponse msg).timestamp = none := by
  unfold ragQuery queryErrorResponse
  cases docs with
  | nil => exact ⟨fun _ => ⟨rfl, rfl⟩, fun hne => absurd rfl hne, rfl, rfl⟩
  | cons d ds =>
    refine ⟨fun hc => absurd hc (List.cons_ne_nil d ds), fun _ => ⟨?_, ?_⟩, rfl, rfl⟩
    · rfl
    · rfl

/-- C7 witness: a one-element result set gives an answer carrying the query
text and the timestamp. -/
theorem answer_field_presence_witness :
    (ragQuery (fun _ _ => "ans") 3 "q"
        [SearchResult.mk "c" "NVDA" "2024" "Q1" (9/10)]).queryText = some "q" ∧
      (ragQuery (fun _ _ => "ans") 3 "q"
        [SearchResult.mk "c" "NVDA" "2024" "Q1" (9/10)]).timestamp = some 3 :=
  (answer_field_presence (fun _ _ => "ans") 3 "q" "m"
      [SearchResult.mk "c" "NVDA" "2024" "Q1" (9/10)]).2.1
    (List.cons_ne_nil _ _)

/-- The metadata stored with one chunk, as read back by
`RAGSystem.get_collection_stats` (rag_system.py lines 354-372).  `addedDate`
is the ingestion instant in whole days (`none` models a missing or
unparseable `added_date`). -/
structure ChunkMetadata where
  company : String
  year : String
  quarter : String
  addedDate : Option Nat
deriving DecidableEq

/-- The statistics dictionary built by `RAGSystem.get_collection_stats`
(rag_system.py lines 337-344 and 379-386).  The `new_documents` key is absent
in the empty-index branch, hence the `Option`. -/
structure CollectionStats where
  totalDocuments : Nat
  uniqueCompanies : Nat
  latestQuarter : String
  daysSinceUpdate : Nat
  companyDistribution : List (String × Nat)
  newDocuments : Option Nat
deriving DecidableEq

/-- `RAGSystem.get_collection_stats` (rag_system.py lines 328-390) over the
stored metadata list, with `now` the current instant in whole days.  The
empty index returns the zeroed summary of lines 337-344; otherwise the code
counts chunks, distinct companies (built as a set), the lexicographic maximum
of the nonblank "year quarter" strings, the days since the latest
`added_date`, the per-company histogram, and the chunks added on the current
day. -/
def getCollectionStats (now : Nat) (metadatas : List ChunkMetadata) : CollectionStats :=
  if metadatas.isEmpty then
    { totalDocuments := 0, uniqueCompanies := 0, latestQuarter := "N/A",
      daysSinceUpdate := 0, companyDistribution := [], newDocuments := none }
  else
    let companies := (metadatas.map (fun m => m.company)).dedup
    let quarters := (metadatas.filter
        (fun m => !(m.year = "" && m.quarter = ""))).map
      (fun m => m.year ++ " " ++ m.quarter)
    let daysSinceUpdate :=
      match (metadatas.filterMap (fun m => m.addedDate)).max? with
      | none => 0
      | some latest => now - latest
    { totalDocuments := metadatas.length,
      uniqueCompanies := companies.length,
      latestQuarter := match quarters.max? with
        | none => "N/A"
        | some q => q,
      daysSinceUpdate := daysSinceUpdate,
      companyDistribution :=
        companies.map (fun c => (c, (metadatas.filter (fun m => m.company = c)).length)),
      newDocuments :=
        some ((metadatas.filter (fun m => m.addedDate = some now)).length) }

/-- C8: the statistics operation on an empty (initialized but chunk-free)
index returns the zeroed summary — total 0, distinct companies 0, latest
period "N/A", days since update 0, empty histogram — instead of failing. -/
theorem stats_empty_index_zeroed (now : Nat) :
    getCollectionStats now [] =
      { totalDocuments := 0, uniqueCompanies := 0, latestQuarter := "N/A",
        daysSinceUpdate := 0, companyDistribution := [], newDocuments := none } :=
  rfl

/-- The bookkeeping entry `DataScheduler.jobs[job_id]` keeps per job
(scheduler.py lines 119-124 and analogous blocks). -/
structure JobInfo where
  jobType : String
  created : Nat
deriving DecidableEq

/-- The state of `DataScheduler`: the ids registered in the underlying
background scheduler and the bookkeeping dictionary `self.jobs`
(scheduler.py lines 26-30). -/
structure SchedulerState where
  apsJobs : List String
  jobsMeta : List (String × JobInfo)
deriving DecidableEq

/-- The external scheduling library call `scheduler.remove_job(job_id)`: it
removes the registration when the id is present and raises a lookup error
(modelled by `Except.error`) when it is absent. -/
def apsRemoveJob (jobs : List String) (id : String) : Except String (List String) :=
  if id ∈ jobs then Except.ok (jobs.filter (fun j => j ≠ id))
  else Except.error "JobLookupError"

/-- `DataScheduler.remove_job` (scheduler.py lines 242-252): attempts the
library removal and the deletion of the bookkeeping entry, returning `true`;
any exception is caught and turned into a `false` return with the state left
as it was. -/
def removeJob (s : SchedulerState) (id : String) : Bool × SchedulerState :=
  match apsRemoveJob s.apsJobs id with
  | Except.ok jobs =>
      (true,
        { apsJobs := jobs,
          jobsMeta := if s.jobsMeta.any (fun kv => kv.1 = id) then
              s.jobsMeta.filter (fun kv => kv.1 ≠ id)
            else s.jobsMeta })
  | Except.error _ => (false, s)

/-- C9: removing an unregistered job id is a no-op returning `false` (the
raised lookup error is caught, never propagated), and removing a registered
id returns `true` and leaves the id absent from the underlying scheduler, so
it has no future firings. -/
theorem remove_job_semantics (s : SchedulerState) (id : String) :
    (id ∉ s.apsJobs → removeJob s id = (false, s)) ∧
      (id ∈ s.apsJobs → (removeJob s id).1 = true ∧
        id ∉ (removeJob s id).2.apsJobs) := by
  constructor
  · intro habs
    unfold removeJob apsRemoveJob
    rw [if_neg habs]
  · intro hmem
    unfold removeJob apsRemoveJob
    rw [if_pos hmem]
    refine ⟨rfl, ?_⟩
    intro hin
    have := List.of_mem_filter hin
    simp at this

/-- C9 witness: removal applied to a concrete two-job state, at an absent id
and at a present id. -/
theorem remove_job_semantics_witness :
    (removeJob (SchedulerState.mk ["daily_extraction"] []) "nonexistent" =
        (false, SchedulerState.mk ["daily_extraction"] []) ∧
      "daily_extraction" ∉
        (removeJob (SchedulerState.mk ["daily_extraction"] []) "daily_extraction").2.apsJobs) ∧
      (removeJob (SchedulerState.mk ["daily_extraction"] []) "daily_extraction").1 = true :=
  ⟨⟨(remove_job_semantics (SchedulerState.mk ["daily_extraction"] []) "nonexistent").1
        (by decide),
      ((remove_job_semantics (SchedulerState.mk ["daily_extraction"] [])
          "daily_extraction").2 (by decide)).2⟩,
    ((remove_job_semantics (SchedulerState.mk ["daily_extraction"] [])
        "daily_extraction").2 (by decide)).1⟩

/-- One indexed chunk as seen by `RAGSystem.delete_documents`: its id and its
metadata dictionary. -/
structure IndexedChunk where
  id : String
  metadata : List (String × String)
deriving DecidableEq

/-- The store-side filter match used by `collection.get(where=filters)`:
every filter key must be present in the chunk metadata with the given
value. -/
def matchesFilters (filters : List (String × String)) (c : IndexedChunk) : Bool :=
  filters.all (fun kv => c.metadata.lookup kv.1 = some kv.2)

/-- `RAGSystem.delete_documents` (rag_system.py lines 392-413).  The
collection is `none` when uninitialized (line 395-396, also standing for a
storage failure caught by the `except` branch); otherwise the ids of the
matching chunks are fetched, and if any exist they are deleted and `true`
is returned, else `false` with the collection untouched. -/
def deleteDocuments (collection : Option (List IndexedChunk))
    (filters : List (String × String)) : Bool × Option (List IndexedChunk) :=
  match collection with
  | none => (false, none)
  | some chunks =>
      let ids := (chunks.filter (matchesFilters filters)).map (fun c => c.id)
      if ids.isEmpty then (false, some chunks)
      else (true, some (chunks.filter (fun c => !(ids.contains c.id))))

/-- C10: deletion returns `true` exactly when some indexed chunk matches the
filters, and in that case the surviving collection is a sub-collection of the
original from which every chunk matching the filters has been removed; with
no match it returns `false` and leaves the index unchanged, and an
unavailable store also returns `false` — so the return value alone cannot
distinguish an empty match from a storage failure. -/
theorem delete_documents_semantics (chunks : List IndexedChunk)
    (filters : List (String × String)) :
    ((deleteDocuments (some chunks) filters).1 = true ↔
        ∃ c ∈ chunks, matchesFilters filters c) ∧
      ((deleteDocuments (some chunks) filters).1 = true →
        ∃ remaining, (deleteDocuments (some chunks) filters).2 = some remaining ∧
          remaining.Sublist chunks ∧
          ∀ c ∈ remaining, matchesFilters filters c = false) ∧
      ((deleteDocuments (some chunks) filters).1 = false →
        (deleteDocuments (some chunks) filters).2 = some chunks) ∧
      (deleteDocuments none filters).1 = false := by
  simp only [deleteDocuments]
  by_cases h : ((chunks.filter (matchesFilters filters)).map (fun c => c.id)).isEmpty
  · rw [if_pos h]
    rw [List.isEmpty_iff, List.map_eq_nil_iff, List.filter_eq_nil_iff] at h
    exact ⟨⟨fun hf => absurd hf (by simp),
        fun ⟨c, hc, hm⟩ => absurd hm (h c hc)⟩,
      fun hf => absurd hf (by simp),
      fun _ => rfl, trivial⟩
  · rw [if_neg h]
    rw [List.isEmpty_iff, List.map_eq_nil_iff] at h
    obtain ⟨c, hc⟩ := List.exists_mem_of_ne_nil _ h
    have hcm := List.mem_filter.mp hc
    refine ⟨⟨fun _ => ⟨c, hcm.1, hcm.2⟩, fun _ => rfl⟩, fun _ => ?_,
      fun hf => absurd hf (by simp), trivial⟩
    refine ⟨_, rfl, List.filter_sublist _, ?_⟩
    intro d hd
    have hdm := List.mem_filter.mp hd
    by_contra hmatch
    have hdmatch : matchesFilters filters d = true := by
      revert hmatch
      cases matchesFilters filters d <;> simp
    have hdid : d.id ∈ (chunks.filter (matchesFilters filters)).map
        (fun c => c.id) :=
      List.mem_map.mpr ⟨d, List.mem_filter.mpr ⟨hdm.1, hdmatch⟩, rfl⟩
    have hfalse : ((chunks.filter (matchesFilters filters)).map
        (fun c => c.id)).contains d.id = false := by
      have h2 := hdm.2
      simpa using h2
    have htrue : ((chunks.filter (matchesFilters filters)).map
        (fun c => c.id)).contains d.id = true :=
      List.elem_iff.mpr hdid
    rw [htrue] at hfalse
    exact absurd hfalse (by simp)

/-- C10 witness: a one-chunk store with a matching filter returns `true` and
the surviving collection contains no matching chunk; with a non-matching
filter it returns `false` and keeps the chunk. -/
theorem delete_documents_semantics_witness :
    ((deleteDocuments (some [IndexedChunk.mk "id0" [("company", "NVDA")]])
          [("company", "NVDA")]).1 = true ↔
        ∃ c ∈ [IndexedChunk.mk "id0" [("company", "NVDA")]],
          matchesFilters [("company", "NVDA")] c) ∧
      (∃ remaining,
        (deleteDocuments (some [IndexedChunk.mk "id0" [("company", "NVDA")]])
            [("company", "NVDA")]).2 = some remaining ∧
          remaining.Sublist [IndexedChunk.mk "id0" [("company", "NVDA")]] ∧
          ∀ c ∈ remaining, matchesFilters [("company", "NVDA")] c = false) ∧
      ((deleteDocuments (some [IndexedChunk.mk "id0" [("company", "NVDA")]])
          [("company", "MSFT")]).1 = false →
        (deleteDocuments (some [IndexedChunk.mk "id0" [("company", "NVDA")]])
          [("company", "MSFT")]).2 =
          some [IndexedChunk.mk "id0" [("company", "NVDA")]]) :=
  ⟨(delete_documents_semantics [IndexedChunk.mk "id0" [("company", "NVDA")]]
      [("company", "NVDA")]).1,
    (delete_documents_semantics [IndexedChunk.mk "id0" [("company", "NVDA")]]
      [("company", "NVDA")]).2.1 (by decide),
    (delete_documents_semantics [IndexedChunk.mk "id0" [("company", "NVDA")]]
      [("company", "MSFT")]).2.2.1⟩

end EarningsRAG
